import Mathlib

/-!
Shallow embedding of `crypto/x509/x509_vpm.c` (the `X509_VERIFY_PARAM`
verification-parameter store and its inheritance/merge algorithm).

Modelling conventions:
* C byte strings (`char *` / `unsigned char *`) are `List Nat` of byte values;
  a possibly-NULL pointer argument is an `Option (List Nat)`.
* `STACK_OF(OPENSSL_STRING)` is `Option (List (List Nat))` (NULL vs. a stack);
  `STACK_OF(ASN1_OBJECT)` is `Option (List Nat)` with OIDs as opaque numbers.
* Machine integers: `flags`, `inh_flags`, `hostflags` (C `unsigned long` /
  `unsigned int`) are `Nat`; `purpose`, `trust`, `depth` (C `int`) and
  `check_time` (C `int64_t`) are `Int`; sizes are `Nat`.
* Heap allocation may fail in C; every fallible allocation in a modelled
  routine is gated on an explicit `allocOk : Bool` oracle (`false` makes the
  first allocation the routine attempts fail, which is the C failure path).
* Functions that mutate a `X509_VERIFY_PARAM *` take the record and return
  `Bool × X509_VERIFY_PARAM` (the C `int` result and the post-state); an early
  `return 0` returns the state mutated so far, as in C.
-/

/-- Inheritance flag `X509_VP_FLAG_DEFAULT` (public header value 0x1). -/
def X509_VP_FLAG_DEFAULT : Nat := 0x1

/-- Inheritance flag `X509_VP_FLAG_OVERWRITE` (public header value 0x2). -/
def X509_VP_FLAG_OVERWRITE : Nat := 0x2

/-- Inheritance flag `X509_VP_FLAG_RESET_FLAGS` (public header value 0x4). -/
def X509_VP_FLAG_RESET_FLAGS : Nat := 0x4

/-- Inheritance flag `X509_VP_FLAG_LOCKED` (public header value 0x8). -/
def X509_VP_FLAG_LOCKED : Nat := 0x8

/-- Inheritance flag `X509_VP_FLAG_ONCE` (public header value 0x10). -/
def X509_VP_FLAG_ONCE : Nat := 0x10

/-- Verification flag `X509_V_FLAG_USE_CHECK_TIME` (public header value 0x2). -/
def X509_V_FLAG_USE_CHECK_TIME : Nat := 0x2

/-- Verification flag `X509_V_FLAG_POLICY_CHECK` (public header value 0x80). -/
def X509_V_FLAG_POLICY_CHECK : Nat := 0x80

/-- Verification flag `X509_V_FLAG_TRUSTED_FIRST` (public header value 0x8000). -/
def X509_V_FLAG_TRUSTED_FIRST : Nat := 0x8000

/-- Bitwise complement within the width of a C `unsigned long` (64 bits);
`a &&& not64 m` models `a & ~m`. -/
def not64 (m : Nat) : Nat := (2 ^ 64 - 1) ^^^ m

/-- The struct `X509_VERIFY_PARAM_st`, fields in source order. -/
structure X509_VERIFY_PARAM where
  check_time : Int
  inh_flags : Nat
  flags : Nat
  purpose : Int
  trust : Int
  depth : Int
  policies : Option (List Nat)
  hosts : Option (List (List Nat))
  hostflags : Nat
  email : Option (List Nat)
  emaillen : Nat
  ip : Option (List Nat)
  iplen : Nat
  poison : Bool
deriving DecidableEq, Repr

/-- C `strlen`: number of bytes before the first NUL. -/
def strlen (s : List Nat) : Nat := (s.takeWhile (fun b => b != 0)).length

/-- `OPENSSL_memchr(s, 0, n) != NULL`: whether a NUL occurs in the first `n`
bytes.  AWS-LC's wrapper returns NULL for `n = 0` without reading, so a NULL
pointer with `n = 0` is a safe miss. -/
def memchr0 (s : Option (List Nat)) (n : Nat) : Bool :=
  match s with
  | none => false
  | some bs => (bs.take n).contains 0

/-- `OPENSSL_strndup`: copy at most `n` bytes, stopping at the first NUL. -/
def OPENSSL_strndup (s : List Nat) (n : Nat) : List Nat :=
  (s.take n).takeWhile (fun b => b != 0)

/-- `OPENSSL_strdup`: copy up to the first NUL. -/
def OPENSSL_strdup (s : List Nat) : List Nat := s.takeWhile (fun b => b != 0)

/-- `OPENSSL_memdup(src, n)`: copy the first `n` bytes verbatim. -/
def OPENSSL_memdup (s : List Nat) (n : Nat) : List Nat := s.take n

/-- `SET_HOST` mode constant. -/
def SET_HOST : Nat := 0

/-- `ADD_HOST` mode constant. -/
def ADD_HOST : Nat := 1

/-- `X509_VERIFY_PARAM_new`: zero-initialized store with `depth = -1`
(the successful-allocation outcome). -/
def X509_VERIFY_PARAM_new : X509_VERIFY_PARAM :=
  { check_time := 0, inh_flags := 0, flags := 0, purpose := 0, trust := 0,
    depth := -1, policies := none, hosts := none, hostflags := 0,
    email := none, emaillen := 0, ip := none, iplen := 0, poison := false }

/-- The resources the destructor releases, in order. -/
inductive FreeAction where
  | policiesList
  | hostsList
  | emailBuf
  | ipBuf
  | storeItself
deriving DecidableEq, Repr

/-- `X509_VERIFY_PARAM_free`: modelled as the sequence of release actions the
destructor performs (freeing a NULL sub-pointer is a no-op, so only present
sub-resources appear; a NULL store performs nothing). -/
def X509_VERIFY_PARAM_free : Option X509_VERIFY_PARAM → List FreeAction
  | none => []
  | some p =>
    (if p.policies.isSome then [FreeAction.policiesList] else []) ++
    (if p.hosts.isSome then [FreeAction.hostsList] else []) ++
    (if p.email.isSome then [FreeAction.emailBuf] else []) ++
    (if p.ip.isSome then [FreeAction.ipBuf] else []) ++
    [FreeAction.storeItself]

/-- `int_x509_param_set_hosts(param, mode, name, namelen)`. -/
def int_x509_param_set_hosts (allocOk : Bool) (param : X509_VERIFY_PARAM)
    (mode : Nat) (name : Option (List Nat)) (namelen : Nat) :
    Bool × X509_VERIFY_PARAM :=
  -- namelen == 0 auto-detects the length of a non-NULL name.
  let namelen := match name with
    | some s => if namelen == 0 then strlen s else namelen
    | none => namelen
  -- Refuse names with embedded NUL bytes.
  if name.isSome && memchr0 name namelen then
    (false, param)
  else
    let param := if mode == SET_HOST && param.hosts.isSome then
        { param with hosts := none }
      else param
    if name.isNone || namelen == 0 then
      (true, param)
    else
      match name with
      | none => (true, param)
      | some s =>
        if !allocOk then
          (false, param)
        else
          let copy := OPENSSL_strndup s namelen
          match param.hosts with
          | none => (true, { param with hosts := some [copy] })
          | some l => (true, { param with hosts := some (l ++ [copy]) })

/-- `X509_VERIFY_PARAM_set1_host`. -/
def X509_VERIFY_PARAM_set1_host (allocOk : Bool) (param : X509_VERIFY_PARAM)
    (name : Option (List Nat)) (namelen : Nat) : Bool × X509_VERIFY_PARAM :=
  let r := int_x509_param_set_hosts allocOk param SET_HOST name namelen
  if r.1 then r else (false, { r.2 with poison := true })

/-- `X509_VERIFY_PARAM_add1_host`. -/
def X509_VERIFY_PARAM_add1_host (allocOk : Bool) (param : X509_VERIFY_PARAM)
    (name : Option (List Nat)) (namelen : Nat) : Bool × X509_VERIFY_PARAM :=
  let r := int_x509_param_set_hosts allocOk param ADD_HOST name namelen
  if r.1 then r else (false, { r.2 with poison := true })

/-- `int_x509_param_set1_email(pdest, pdestlen, src, srclen)`: returns the new
`(*pdest, *pdestlen)` on success, `none` on allocation failure (in which case
the destination is untouched). -/
def int_x509_param_set1_email (allocOk : Bool) (src : Option (List Nat))
    (srclen : Nat) : Option (Option (List Nat) × Nat) :=
  match src with
  | some s =>
    -- srclen == 0 auto-detects the length.
    let srclen := if srclen == 0 then strlen s else srclen
    if allocOk then some (some (OPENSSL_strndup s srclen), srclen) else none
  | none =>
    -- NULL disables previously configured checks.
    some (none, 0)

/-- `X509_VERIFY_PARAM_set1_email`. -/
def X509_VERIFY_PARAM_set1_email (allocOk : Bool) (param : X509_VERIFY_PARAM)
    (email : Option (List Nat)) (emaillen : Nat) : Bool × X509_VERIFY_PARAM :=
  if memchr0 email emaillen then
    (false, { param with poison := true })
  else
    match int_x509_param_set1_email allocOk email emaillen with
    | some (e, l) => (true, { param with email := e, emaillen := l })
    | none => (false, { param with poison := true })

/-- `int_x509_param_set1_ip(pdest, pdestlen, src, srclen)`: returns the new
`(*pdest, *pdestlen)` on success, `none` on failure (NULL or zero-length
source rejected; destination untouched on failure). -/
def int_x509_param_set1_ip (allocOk : Bool) (src : Option (List Nat))
    (srclen : Nat) : Option (List Nat × Nat) :=
  match src with
  | none => none
  | some s =>
    if srclen == 0 then none
    else if allocOk then some (OPENSSL_memdup s srclen, srclen) else none

/-- `X509_VERIFY_PARAM_set1_ip`. -/
def X509_VERIFY_PARAM_set1_ip (allocOk : Bool) (param : X509_VERIFY_PARAM)
    (ip : Option (List Nat)) (iplen : Nat) : Bool × X509_VERIFY_PARAM :=
  if iplen != 0 && iplen != 4 && iplen != 16 then
    (false, { param with poison := true })
  else
    match int_x509_param_set1_ip allocOk ip iplen with
    | some (b, l) => (true, { param with ip := some b, iplen := l })
    | none => (false, { param with poison := true })

/-- `X509_VERIFY_PARAM_set1_policies` (the `param == NULL` guard of the C code
does not arise: the store is passed by value). -/
def X509_VERIFY_PARAM_set1_policies (allocOk : Bool)
    (param : X509_VERIFY_PARAM) (policies : Option (List Nat)) :
    Bool × X509_VERIFY_PARAM :=
  -- sk_ASN1_OBJECT_pop_free(param->policies, ...) releases the old list.
  match policies with
  | none => (true, { param with policies := none })
  | some ps =>
    if allocOk then
      (true, { param with policies := some ps,
                          flags := param.flags ||| X509_V_FLAG_POLICY_CHECK })
    else
      -- sk_ASN1_OBJECT_deep_copy failed: param->policies is its NULL result.
      (false, { param with policies := none })

/-- The macro `test_x509_verify_param_copy(field, def)`. -/
def test_x509_verify_param_copy {α : Type} [DecidableEq α]
    (to_overwrite to_default : Bool) (srcField destField dflt : α) : Bool :=
  to_overwrite ||
    (!decide (srcField = dflt) && (to_default || decide (destField = dflt)))

/-- Lines 221-237 of `X509_VERIFY_PARAM_inherit`: the scalar copies
(`purpose`, `trust`, `depth`), the `check_time` special case, and the `flags`
reset/accumulate step. -/
def x509_scalar_inherit (to_overwrite to_default : Bool) (inh_flags : Nat)
    (dest src : X509_VERIFY_PARAM) : X509_VERIFY_PARAM :=
  let dest := if test_x509_verify_param_copy to_overwrite to_default
      src.purpose dest.purpose 0 then { dest with purpose := src.purpose }
    else dest
  let dest := if test_x509_verify_param_copy to_overwrite to_default
      src.trust dest.trust 0 then { dest with trust := src.trust }
    else dest
  let dest := if test_x509_verify_param_copy to_overwrite to_default
      src.depth dest.depth (-1) then { dest with depth := src.depth }
    else dest
  -- If overwrite or check time not set, copy across.
  let dest := if to_overwrite || (dest.flags &&& X509_V_FLAG_USE_CHECK_TIME == 0)
    then { dest with check_time := src.check_time,
                     flags := dest.flags &&& not64 X509_V_FLAG_USE_CHECK_TIME }
    else dest
  let dest := if inh_flags &&& X509_VP_FLAG_RESET_FLAGS != 0 then
      { dest with flags := 0 }
    else dest
  { dest with flags := dest.flags ||| src.flags }

/-- The guarded `policies` copy of `X509_VERIFY_PARAM_inherit` (lines 239-243). -/
def x509_policies_copy_step (allocOk to_overwrite to_default : Bool)
    (dest src : X509_VERIFY_PARAM) : Bool × X509_VERIFY_PARAM :=
  if test_x509_verify_param_copy to_overwrite to_default
      src.policies dest.policies none then
    X509_VERIFY_PARAM_set1_policies allocOk dest src.policies
  else (true, dest)

/-- The guarded `hosts` copy of `X509_VERIFY_PARAM_inherit` (lines 245-259);
the host flags travel with the host list. -/
def x509_hosts_copy_step (allocOk to_overwrite to_default : Bool)
    (dest src : X509_VERIFY_PARAM) : Bool × X509_VERIFY_PARAM :=
  if test_x509_verify_param_copy to_overwrite to_default
      src.hosts dest.hosts none then
    let dest := if dest.hosts.isSome then { dest with hosts := none } else dest
    match src.hosts with
    | none => (true, dest)
    | some l =>
      if allocOk then
        (true, { dest with hosts := some (l.map OPENSSL_strdup),
                           hostflags := src.hostflags })
      else (false, dest)
  else (true, dest)

/-- The guarded `email` copy of `X509_VERIFY_PARAM_inherit` (lines 261-265). -/
def x509_email_copy_step (allocOk to_overwrite to_default : Bool)
    (dest src : X509_VERIFY_PARAM) : Bool × X509_VERIFY_PARAM :=
  if test_x509_verify_param_copy to_overwrite to_default
      src.email dest.email none then
    X509_VERIFY_PARAM_set1_email allocOk dest src.email src.emaillen
  else (true, dest)

/-- The guarded `ip` copy of `X509_VERIFY_PARAM_inherit` (lines 267-271). -/
def x509_ip_copy_step (allocOk to_overwrite to_default : Bool)
    (dest src : X509_VERIFY_PARAM) : Bool × X509_VERIFY_PARAM :=
  if test_x509_verify_param_copy to_overwrite to_default
      src.ip dest.ip none then
    X509_VERIFY_PARAM_set1_ip allocOk dest src.ip src.iplen
  else (true, dest)

/-- `X509_VERIFY_PARAM_inherit(dest, src)`. -/
def X509_VERIFY_PARAM_inherit (allocOk : Bool) (dest : X509_VERIFY_PARAM)
    (srcOpt : Option X509_VERIFY_PARAM) : Bool × X509_VERIFY_PARAM :=
  match srcOpt with
  | none => (true, dest)
  | some src =>
    let inh_flags := dest.inh_flags ||| src.inh_flags
    let dest := if inh_flags &&& X509_VP_FLAG_ONCE != 0 then
        { dest with inh_flags := 0 }
      else dest
    if inh_flags &&& X509_VP_FLAG_LOCKED != 0 then
      (true, dest)
    else
      let to_default := inh_flags &&& X509_VP_FLAG_DEFAULT != 0
      let to_overwrite := inh_flags &&& X509_VP_FLAG_OVERWRITE != 0
      let dest := x509_scalar_inherit to_overwrite to_default inh_flags dest src
      let r1 := x509_policies_copy_step allocOk to_overwrite to_default dest src
      if !r1.1 then r1 else
      let r2 := x509_hosts_copy_step allocOk to_overwrite to_default r1.2 src
      if !r2.1 then r2 else
      let r3 := x509_email_copy_step allocOk to_overwrite to_default r2.2 src
      if !r3.1 then r3 else
      let r4 := x509_ip_copy_step allocOk to_overwrite to_default r3.2 src
      if !r4.1 then r4 else
      (true, { r4.2 with poison := src.poison })

/-- `X509_VERIFY_PARAM_set1(to, from)` (the C parameters `to` and `from` are
reserved words here, hence `dest` and `srcOpt`). -/
def X509_VERIFY_PARAM_set1 (allocOk : Bool) (dest : X509_VERIFY_PARAM)
    (srcOpt : Option X509_VERIFY_PARAM) : Bool × X509_VERIFY_PARAM :=
  let save_flags := dest.inh_flags
  let dest := { dest with inh_flags := dest.inh_flags ||| X509_VP_FLAG_DEFAULT }
  let r := X509_VERIFY_PARAM_inherit allocOk dest srcOpt
  (r.1, { r.2 with inh_flags := save_flags })

/-- Well-formedness of the identity fields as the public setters maintain it:
a present email is NUL-free with `emaillen` its exact length, a present ip has
`iplen` equal to its length and 4 or 16, and present host strings are
NUL-free. -/
def idWellFormed (p : X509_VERIFY_PARAM) : Bool :=
  (match p.email with
   | none => true
   | some bs => p.emaillen == bs.length && !(bs.contains 0)) &&
  (match p.ip with
   | none => true
   | some b => p.iplen == b.length && (p.iplen == 4 || p.iplen == 16)) &&
  (match p.hosts with
   | none => true
   | some l => l.all (fun s => !(s.contains 0)))

/-! ## Helper lemmas -/

theorem nat_and_or_distrib_right (a b m : Nat) :
    (a ||| b) &&& m = (a &&& m) ||| (b &&& m) := by
  apply Nat.eq_of_testBit_eq
  intro i
  simp [Nat.testBit_and, Nat.testBit_or, Bool.and_or_distrib_right]

theorem nat_or_ne_zero_left (a b : Nat) (h : a ≠ 0) : (a ||| b) ≠ 0 := by
  intro hc
  apply h
  apply Nat.zero_of_testBit_eq_false
  intro i
  have hb := congrArg (fun x => Nat.testBit x i) hc
  simp [Nat.testBit_or, Nat.zero_testBit] at hb
  exact hb.1

theorem nat_and_or_ne_zero_left (a b m : Nat) (h : a &&& m ≠ 0) :
    (a ||| b) &&& m ≠ 0 := by
  rw [nat_and_or_distrib_right]
  exact nat_or_ne_zero_left _ _ h

theorem takeWhile_ne_zero_eq_self {l : List Nat} (h : l.contains 0 = false) :
    l.takeWhile (fun b => b != 0) = l := by
  rw [List.takeWhile_eq_self_iff]
  intro x hx
  simp only [List.contains_eq_any_beq, List.any_eq_false] at h
  have hb := h x hx
  simp only [bne_iff_ne, ne_eq]
  intro hc
  subst hc
  simp at hb

theorem strdup_map_eq_self {l : List (List Nat)}
    (h : l.all (fun s => !(s.contains 0)) = true) :
    l.map OPENSSL_strdup = l := by
  induction l with
  | nil => rfl
  | cons a t ih =>
    simp only [List.all_cons, Bool.and_eq_true] at h
    simp only [List.map_cons, OPENSSL_strdup]
    rw [takeWhile_ne_zero_eq_self (by simpa using h.1), ih h.2]

theorem sentinel_copy_eq {α : Type} [DecidableEq α] (o : Bool) (x dflt : α) :
    (if test_x509_verify_param_copy false o x dflt dflt then x else dflt) = x := by
  by_cases h : x = dflt <;> simp [test_x509_verify_param_copy, h]

theorem x509_policies_copy_step_frame (a t o : Bool) (d s : X509_VERIFY_PARAM) :
    ((x509_policies_copy_step a t o d s).2).check_time = d.check_time ∧
    ((x509_policies_copy_step a t o d s).2).inh_flags = d.inh_flags ∧
    ((x509_policies_copy_step a t o d s).2).purpose = d.purpose ∧
    ((x509_policies_copy_step a t o d s).2).trust = d.trust ∧
    ((x509_policies_copy_step a t o d s).2).depth = d.depth ∧
    ((x509_policies_copy_step a t o d s).2).hosts = d.hosts ∧
    ((x509_policies_copy_step a t o d s).2).hostflags = d.hostflags ∧
    ((x509_policies_copy_step a t o d s).2).email = d.email ∧
    ((x509_policies_copy_step a t o d s).2).emaillen = d.emaillen ∧
    ((x509_policies_copy_step a t o d s).2).ip = d.ip ∧
    ((x509_policies_copy_step a t o d s).2).iplen = d.iplen ∧
    ((x509_policies_copy_step a t o d s).2).poison = d.poison := by
  unfold x509_policies_copy_step X509_VERIFY_PARAM_set1_policies
  split
  · cases s.policies
    · simp
    · simp only []
      split <;> simp
  · simp

theorem x509_hosts_copy_step_frame (a t o : Bool) (d s : X509_VERIFY_PARAM) :
    ((x509_hosts_copy_step a t o d s).2).check_time = d.check_time ∧
    ((x509_hosts_copy_step a t o d s).2).inh_flags = d.inh_flags ∧
    ((x509_hosts_copy_step a t o d s).2).flags = d.flags ∧
    ((x509_hosts_copy_step a t o d s).2).purpose = d.purpose ∧
    ((x509_hosts_copy_step a t o d s).2).trust = d.trust ∧
    ((x509_hosts_copy_step a t o d s).2).depth = d.depth ∧
    ((x509_hosts_copy_step a t o d s).2).policies = d.policies ∧
    ((x509_hosts_copy_step a t o d s).2).email = d.email ∧
    ((x509_hosts_copy_step a t o d s).2).emaillen = d.emaillen ∧
    ((x509_hosts_copy_step a t o d s).2).ip = d.ip ∧
    ((x509_hosts_copy_step a t o d s).2).iplen = d.iplen ∧
    ((x509_hosts_copy_step a t o d s).2).poison = d.poison := by
  unfold x509_hosts_copy_step
  split
  · cases s.hosts
    · split <;> simp
    · split <;> (simp only []; split <;> simp)
  · simp

theorem x509_email_copy_step_frame (a t o : Bool) (d s : X509_VERIFY_PARAM) :
    ((x509_email_copy_step a t o d s).2).check_time = d.check_time ∧
    ((x509_email_copy_step a t o d s).2).inh_flags = d.inh_flags ∧
    ((x509_email_copy_step a t o d s).2).flags = d.flags ∧
    ((x509_email_copy_step a t o d s).2).purpose = d.purpose ∧
    ((x509_email_copy_step a t o d s).2).trust = d.trust ∧
    ((x509_email_copy_step a t o d s).2).depth = d.depth ∧
    ((x509_email_copy_step a t o d s).2).policies = d.policies ∧
    ((x509_email_copy_step a t o d s).2).hosts = d.hosts ∧
    ((x509_email_copy_step a t o d s).2).hostflags = d.hostflags ∧
    ((x509_email_copy_step a t o d s).2).ip = d.ip ∧
    ((x509_email_copy_step a t o d s).2).iplen = d.iplen := by
  unfold x509_email_copy_step X509_VERIFY_PARAM_set1_email
  split
  · split
    · simp
    · split <;> simp
  · simp

theorem x509_ip_copy_step_frame (a t o : Bool) (d s : X509_VERIFY_PARAM) :
    ((x509_ip_copy_step a t o d s).2).check_time = d.check_time ∧
    ((x509_ip_copy_step a t o d s).2).inh_flags = d.inh_flags ∧
    ((x509_ip_copy_step a t o d s).2).flags = d.flags ∧
    ((x509_ip_copy_step a t o d s).2).purpose = d.purpose ∧
    ((x509_ip_copy_step a t o d s).2).trust = d.trust ∧
    ((x509_ip_copy_step a t o d s).2).depth = d.depth ∧
    ((x509_ip_copy_step a t o d s).2).policies = d.policies ∧
    ((x509_ip_copy_step a t o d s).2).hosts = d.hosts ∧
    ((x509_ip_copy_step a t o d s).2).hostflags = d.hostflags ∧
    ((x509_ip_copy_step a t o d s).2).email = d.email ∧
    ((x509_ip_copy_step a t o d s).2).emaillen = d.emaillen := by
  unfold x509_ip_copy_step X509_VERIFY_PARAM_set1_ip
  split
  · split
    · simp
    · split <;> simp
  · simp

theorem x509_scalar_inherit_spec (t o : Bool) (i : Nat)
    (d s : X509_VERIFY_PARAM) :
    (x509_scalar_inherit t o i d s).purpose =
      (if test_x509_verify_param_copy t o s.purpose d.purpose 0
       then s.purpose else d.purpose) ∧
    (x509_scalar_inherit t o i d s).trust =
      (if test_x509_verify_param_copy t o s.trust d.trust 0
       then s.trust else d.trust) ∧
    (x509_scalar_inherit t o i d s).depth =
      (if test_x509_verify_param_copy t o s.depth d.depth (-1)
       then s.depth else d.depth) ∧
    (x509_scalar_inherit t o i d s).inh_flags = d.inh_flags ∧
    (x509_scalar_inherit t o i d s).policies = d.policies ∧
    (x509_scalar_inherit t o i d s).hosts = d.hosts ∧
    (x509_scalar_inherit t o i d s).hostflags = d.hostflags ∧
    (x509_scalar_inherit t o i d s).email = d.email ∧
    (x509_scalar_inherit t o i d s).emaillen = d.emaillen ∧
    (x509_scalar_inherit t o i d s).ip = d.ip ∧
    (x509_scalar_inherit t o i d s).iplen = d.iplen ∧
    (x509_scalar_inherit t o i d s).poison = d.poison := by
  refine ⟨?_, ?_, ?_, ?_, ?_, ?_, ?_, ?_, ?_, ?_, ?_, ?_⟩ <;>
    simp only [x509_scalar_inherit, apply_ite (f := X509_VERIFY_PARAM.purpose),
      apply_ite (f := X509_VERIFY_PARAM.trust),
      apply_ite (f := X509_VERIFY_PARAM.depth),
      apply_ite (f := X509_VERIFY_PARAM.inh_flags),
      apply_ite (f := X509_VERIFY_PARAM.policies),
      apply_ite (f := X509_VERIFY_PARAM.hosts),
      apply_ite (f := X509_VERIFY_PARAM.hostflags),
      apply_ite (f := X509_VERIFY_PARAM.email),
      apply_ite (f := X509_VERIFY_PARAM.emaillen),
      apply_ite (f := X509_VERIFY_PARAM.ip),
      apply_ite (f := X509_VERIFY_PARAM.iplen),
      apply_ite (f := X509_VERIFY_PARAM.poison),
      apply_ite (f := X509_VERIFY_PARAM.flags)] <;>
    simp [ite_self]

/-! ## Helper lemmas for the well-formed-source merge (C4) -/

theorem set1_email_present_wf (bs : List Nat) (len : Nat)
    (hlen : len = bs.length) (hnul : bs.contains 0 = false)
    (d : X509_VERIFY_PARAM) :
    X509_VERIFY_PARAM_set1_email true d (some bs) len =
      (true, { d with email := some bs, emaillen := len }) := by
  subst hlen
  unfold X509_VERIFY_PARAM_set1_email int_x509_param_set1_email
  have hm : memchr0 (some bs) bs.length = false := by
    show (bs.take bs.length).contains 0 = false
    rw [List.take_length]
    exact hnul
  simp only [hm, Bool.false_eq_true, if_false]
  by_cases h0 : bs.length = 0
  · have hb : bs = [] := List.length_eq_zero.mp h0
    subst hb
    simp [strlen, OPENSSL_strndup]
  · have h0b : (bs.length == 0) = false := by simp [h0]
    simp [h0b, OPENSSL_strndup, List.take_length, takeWhile_ne_zero_eq_self hnul]

theorem set1_ip_present_wf (b : List Nat) (len : Nat)
    (hlen : len = b.length) (h416 : len = 4 ∨ len = 16)
    (d : X509_VERIFY_PARAM) :
    X509_VERIFY_PARAM_set1_ip true d (some b) len =
      (true, { d with ip := some b, iplen := len }) := by
  have hcond : (len != 0 && len != 4 && len != 16) = false := by
    rcases h416 with h | h <;> subst h <;> decide
  unfold X509_VERIFY_PARAM_set1_ip int_x509_param_set1_ip
  rw [hcond]
  subst hlen
  have hne0b : (b.length == 0) = false := by
    rcases h416 with h | h <;> simp [h]
  simp [hne0b, OPENSSL_memdup, List.take_length]

theorem x509_policies_copy_step_fresh (src d : X509_VERIFY_PARAM)
    (hd : d.policies = none) :
    (x509_policies_copy_step true false true d src).1 = true ∧
    ((x509_policies_copy_step true false true d src).2).policies
      = src.policies := by
  rcases hps : src.policies with _ | ps <;>
    simp [x509_policies_copy_step, test_x509_verify_param_copy, hps, hd,
      X509_VERIFY_PARAM_set1_policies]

theorem x509_hosts_copy_step_fresh (src : X509_VERIFY_PARAM)
    (hw : ∀ l, src.hosts = some l → l.all (fun s => !(s.contains 0)) = true)
    (d : X509_VERIFY_PARAM) (hd : d.hosts = none) :
    (x509_hosts_copy_step true false true d src).1 = true ∧
    ((x509_hosts_copy_step true false true d src).2).hosts = src.hosts := by
  rcases hhs : src.hosts with _ | l
  · simp [x509_hosts_copy_step, test_x509_verify_param_copy, hhs, hd]
  · simp [x509_hosts_copy_step, test_x509_verify_param_copy, hhs, hd,
      strdup_map_eq_self (hw l hhs)]

theorem x509_email_copy_step_fresh (src : X509_VERIFY_PARAM)
    (hw : ∀ bs, src.email = some bs →
      src.emaillen = bs.length ∧ bs.contains 0 = false)
    (d : X509_VERIFY_PARAM) (hd : d.email = none) :
    (x509_email_copy_step true false true d src).1 = true ∧
    ((x509_email_copy_step true false true d src).2).email = src.email := by
  rcases hes : src.email with _ | bs
  · simp [x509_email_copy_step, test_x509_verify_param_copy, hes, hd]
  · obtain ⟨hel, hen⟩ := hw bs hes
    simp [x509_email_copy_step, test_x509_verify_param_copy, hes,
      set1_email_present_wf bs src.emaillen hel hen]

theorem x509_ip_copy_step_fresh (src : X509_VERIFY_PARAM)
    (hw : ∀ b, src.ip = some b →
      src.iplen = b.length ∧ (src.iplen = 4 ∨ src.iplen = 16))
    (d : X509_VERIFY_PARAM) (hd : d.ip = none) :
    (x509_ip_copy_step true false true d src).1 = true ∧
    ((x509_ip_copy_step true false true d src).2).ip = src.ip := by
  rcases his : src.ip with _ | b
  · simp [x509_ip_copy_step, test_x509_verify_param_copy, his, hd]
  · obtain ⟨hil, h416⟩ := hw b his
    simp [x509_ip_copy_step, test_x509_verify_param_copy, his,
      set1_ip_present_wf b src.iplen hil h416]

theorem inherit_default_into_fresh (src dest : X509_VERIFY_PARAM)
    (h1 : dest.purpose = 0) (h2 : dest.trust = 0) (h3 : dest.depth = -1)
    (h4 : dest.policies = none) (h5 : dest.hosts = none)
    (h6 : dest.email = none) (h7 : dest.ip = none)
    (hwf : idWellFormed src = true)
    (hLe : (dest.inh_flags ||| src.inh_flags) &&& X509_VP_FLAG_LOCKED = 0)
    (hOe : (dest.inh_flags ||| src.inh_flags) &&& X509_VP_FLAG_OVERWRITE = 0)
    (hDe : (dest.inh_flags ||| src.inh_flags) &&& X509_VP_FLAG_DEFAULT ≠ 0) :
    (X509_VERIFY_PARAM_inherit true dest (some src)).1 = true ∧
    ((X509_VERIFY_PARAM_inherit true dest (some src)).2).purpose = src.purpose ∧
    ((X509_VERIFY_PARAM_inherit true dest (some src)).2).trust = src.trust ∧
    ((X509_VERIFY_PARAM_inherit true dest (some src)).2).depth = src.depth ∧
    ((X509_VERIFY_PARAM_inherit true dest (some src)).2).policies
      = src.policies ∧
    ((X509_VERIFY_PARAM_inherit true dest (some src)).2).hosts = src.hosts ∧
    ((X509_VERIFY_PARAM_inherit true dest (some src)).2).email = src.email ∧
    ((X509_VERIFY_PARAM_inherit true dest (some src)).2).ip = src.ip := by
  have hwe : ∀ bs, src.email = some bs →
      src.emaillen = bs.length ∧ bs.contains 0 = false := by
    intro bs hbs
    unfold idWellFormed at hwf
    rw [hbs] at hwf
    simp only [Bool.and_eq_true, beq_iff_eq, Bool.not_eq_true'] at hwf
    exact hwf.1.1
  have hwi : ∀ b, src.ip = some b →
      src.iplen = b.length ∧ (src.iplen = 4 ∨ src.iplen = 16) := by
    intro b hb
    unfold idWellFormed at hwf
    rw [hb] at hwf
    simp only [Bool.and_eq_true, beq_iff_eq, Bool.not_eq_true',
      Bool.or_eq_true] at hwf
    exact hwf.1.2
  have hwh : ∀ l, src.hosts = some l →
      l.all (fun s => !(s.contains 0)) = true := by
    intro l hl
    unfold idWellFormed at hwf
    rw [hl] at hwf
    simp only [Bool.and_eq_true] at hwf
    exact hwf.2
  have hDb : ((dest.inh_flags ||| src.inh_flags) &&& X509_VP_FLAG_DEFAULT
      != 0) = true := by rwa [bne_iff_ne]
  have hOb : ((dest.inh_flags ||| src.inh_flags) &&& X509_VP_FLAG_OVERWRITE
      != 0) = false := by simp [hOe]
  have hLb : ((dest.inh_flags ||| src.inh_flags) &&& X509_VP_FLAG_LOCKED
      != 0) = false := by simp [hLe]
  unfold X509_VERIFY_PARAM_inherit
  simp only [hLb, hOb, hDb, Bool.false_eq_true, if_false]
  refine ⟨?_, ?_, ?_, ?_, ?_, ?_, ?_, ?_⟩ <;>
    simp [apply_ite (f := Prod.fst (α := Bool) (β := X509_VERIFY_PARAM)),
      apply_ite (f := Prod.snd (α := Bool) (β := X509_VERIFY_PARAM)),
      apply_ite (f := X509_VERIFY_PARAM.purpose),
      apply_ite (f := X509_VERIFY_PARAM.trust),
      apply_ite (f := X509_VERIFY_PARAM.depth),
      apply_ite (f := X509_VERIFY_PARAM.policies),
      apply_ite (f := X509_VERIFY_PARAM.hosts),
      apply_ite (f := X509_VERIFY_PARAM.email),
      apply_ite (f := X509_VERIFY_PARAM.ip),
      x509_policies_copy_step_frame, x509_hosts_copy_step_frame,
      x509_email_copy_step_frame, x509_ip_copy_step_frame,
      x509_scalar_inherit_spec,
      x509_policies_copy_step_fresh src,
      x509_hosts_copy_step_fresh src hwh,
      x509_email_copy_step_fresh src hwe,
      x509_ip_copy_step_fresh src hwi,
      h1, h2, h3, h4, h5, h6, h7, sentinel_copy_eq, ite_self]

/-! ## Helper lemmas for the host setters (C7) -/

theorem set1_host_ok (name : List Nat) (n : Nat)
    (h0 : ((if n == 0 then strlen name else n) == 0) = false)
    (hn : memchr0 (some name) (if n == 0 then strlen name else n) = false)
    (p : X509_VERIFY_PARAM) :
    X509_VERIFY_PARAM_set1_host true p (some name) n =
      (true,
       { p with
         hosts := some [OPENSSL_strndup name
                          (if n == 0 then strlen name else n)] }) := by
  unfold X509_VERIFY_PARAM_set1_host int_x509_param_set_hosts
  simp only [Option.isSome_some, Bool.true_and, hn, Bool.false_eq_true,
    if_false, Option.isNone_some, Bool.false_or, h0, SET_HOST, beq_self_eq_true,
    Bool.true_and, Bool.not_true, ite_false, ite_true]
  cases hp : p.hosts <;> simp [hp]

theorem add1_host_ok (name : List Nat) (n : Nat)
    (h0 : ((if n == 0 then strlen name else n) == 0) = false)
    (hn : memchr0 (some name) (if n == 0 then strlen name else n) = false)
    (p : X509_VERIFY_PARAM) :
    X509_VERIFY_PARAM_add1_host true p (some name) n =
      (true,
       { p with
         hosts := some (p.hosts.getD [] ++
                    [OPENSSL_strndup name
                      (if n == 0 then strlen name else n)]) }) := by
  unfold X509_VERIFY_PARAM_add1_host int_x509_param_set_hosts
  simp only [Option.isSome_some, Bool.true_and, hn, Bool.false_eq_true,
    if_false, Option.isNone_some, Bool.false_or, h0, ADD_HOST, SET_HOST]
  cases hp : p.hosts <;> simp [hp]

/-! ## Claim theorems -/

/-- C1: for every destination store whose `inh_flags` contains the locked bit
and every source store, `X509_VERIFY_PARAM_inherit` returns success and leaves
every field of the destination unchanged, with the single exception that
`inh_flags` is zeroed when the once bit is present in the OR of the two
stores' inheritance flags. -/
theorem inherit_locked_is_frame (allocOk : Bool) (dest src : X509_VERIFY_PARAM)
    (h : dest.inh_flags &&& X509_VP_FLAG_LOCKED ≠ 0) :
    X509_VERIFY_PARAM_inherit allocOk dest (some src) =
      (true,
       { dest with inh_flags :=
           if (dest.inh_flags ||| src.inh_flags) &&& X509_VP_FLAG_ONCE ≠ 0
           then 0 else dest.inh_flags }) := by
  have hl : (dest.inh_flags ||| src.inh_flags) &&& X509_VP_FLAG_LOCKED ≠ 0 :=
    nat_and_or_ne_zero_left _ _ _ h
  unfold X509_VERIFY_PARAM_inherit
  by_cases ho : (dest.inh_flags ||| src.inh_flags) &&& X509_VP_FLAG_ONCE = 0 <;>
    simp [ho, hl, bne_iff_ne]

/-- C1 witness: a locked destination with a once-flagged source is returned
unchanged except for the zeroed `inh_flags`. -/
theorem inherit_locked_is_frame_check :
    X509_VERIFY_PARAM_inherit true
        { X509_VERIFY_PARAM_new with inh_flags := 8 }
        (some { X509_VERIFY_PARAM_new with purpose := 7, inh_flags := 16 }) =
      (true, { X509_VERIFY_PARAM_new with inh_flags := 0 }) := by
  have h := inherit_locked_is_frame true
      { X509_VERIFY_PARAM_new with inh_flags := 8 }
      { X509_VERIFY_PARAM_new with purpose := 7, inh_flags := 16 } (by decide)
  rw [h]
  decide

/-- C2 (amended: the effective flags must not contain the locked bit, which
short-circuits the merge before any per-field copy): when the locked bit is
absent, `X509_VERIFY_PARAM_inherit` applies the generic per-field rule
independently to `purpose` (sentinel 0), `trust` (sentinel 0) and `depth`
(sentinel -1): the destination field becomes the source field exactly when
overwrite is in effect, or when the source field differs from the sentinel
and (default is in effect or the destination field equals the sentinel);
otherwise it is left untouched. -/
theorem inherit_scalar_field_rule (allocOk : Bool)
    (dest src : X509_VERIFY_PARAM)
    (h : (dest.inh_flags ||| src.inh_flags) &&& X509_VP_FLAG_LOCKED = 0) :
    ((X509_VERIFY_PARAM_inherit allocOk dest (some src)).2).purpose =
      (if test_x509_verify_param_copy
          ((dest.inh_flags ||| src.inh_flags) &&& X509_VP_FLAG_OVERWRITE != 0)
          ((dest.inh_flags ||| src.inh_flags) &&& X509_VP_FLAG_DEFAULT != 0)
          src.purpose dest.purpose 0
       then src.purpose else dest.purpose) ∧
    ((X509_VERIFY_PARAM_inherit allocOk dest (some src)).2).trust =
      (if test_x509_verify_param_copy
          ((dest.inh_flags ||| src.inh_flags) &&& X509_VP_FLAG_OVERWRITE != 0)
          ((dest.inh_flags ||| src.inh_flags) &&& X509_VP_FLAG_DEFAULT != 0)
          src.trust dest.trust 0
       then src.trust else dest.trust) ∧
    ((X509_VERIFY_PARAM_inherit allocOk dest (some src)).2).depth =
      (if test_x509_verify_param_copy
          ((dest.inh_flags ||| src.inh_flags) &&& X509_VP_FLAG_OVERWRITE != 0)
          ((dest.inh_flags ||| src.inh_flags) &&& X509_VP_FLAG_DEFAULT != 0)
          src.depth dest.depth (-1)
       then src.depth else dest.depth) := by
  unfold X509_VERIFY_PARAM_inherit
  simp only [h, bne_self_eq_false, Bool.false_eq_true, if_false]
  refine ⟨?_, ?_, ?_⟩ <;>
    simp [apply_ite (f := Prod.snd (α := Bool) (β := X509_VERIFY_PARAM)),
      apply_ite (f := X509_VERIFY_PARAM.purpose),
      apply_ite (f := X509_VERIFY_PARAM.trust),
      apply_ite (f := X509_VERIFY_PARAM.depth),
      x509_policies_copy_step_frame, x509_hosts_copy_step_frame,
      x509_email_copy_step_frame, x509_ip_copy_step_frame,
      x509_scalar_inherit_spec, ite_self]

/-- C2 witness: with default mode in the destination, a configured source
purpose overrides the sentinel-free destination fields per the rule. -/
theorem inherit_scalar_field_rule_check :
    ((X509_VERIFY_PARAM_inherit true
        { X509_VERIFY_PARAM_new with purpose := 7, inh_flags := 1 }
        (some { X509_VERIFY_PARAM_new with purpose := 5 })).2).purpose = 5 ∧
    ((X509_VERIFY_PARAM_inherit true
        { X509_VERIFY_PARAM_new with purpose := 7, inh_flags := 1 }
        (some { X509_VERIFY_PARAM_new with purpose := 5 })).2).trust = 0 ∧
    ((X509_VERIFY_PARAM_inherit true
        { X509_VERIFY_PARAM_new with purpose := 7, inh_flags := 1 }
        (some { X509_VERIFY_PARAM_new with purpose := 5 })).2).depth = -1 := by
  have h := inherit_scalar_field_rule true
      { X509_VERIFY_PARAM_new with purpose := 7, inh_flags := 1 }
      { X509_VERIFY_PARAM_new with purpose := 5 } (by decide)
  refine ⟨?_, ?_, ?_⟩
  · rw [h.1]; decide
  · rw [h.2.1]; decide
  · rw [h.2.2]; decide

/-- C2 counterexample: with locked and overwrite both set, the claimed rule
demands that the source purpose be copied, but the code returns before any
per-field copy and the destination purpose stays untouched. -/
theorem inherit_scalar_rule_locked_counterexample :
    ¬ (((X509_VERIFY_PARAM_inherit true
          { X509_VERIFY_PARAM_new with purpose := 7, inh_flags := 10 }
          (some { X509_VERIFY_PARAM_new with purpose := 5 })).2).purpose =
        (if test_x509_verify_param_copy
            ((({ X509_VERIFY_PARAM_new with
                  purpose := 7, inh_flags := 10 } : X509_VERIFY_PARAM).inh_flags
                ||| ({ X509_VERIFY_PARAM_new with
                        purpose := 5 } : X509_VERIFY_PARAM).inh_flags) &&&
              X509_VP_FLAG_OVERWRITE != 0)
            ((({ X509_VERIFY_PARAM_new with
                  purpose := 7, inh_flags := 10 } : X509_VERIFY_PARAM).inh_flags
                ||| ({ X509_VERIFY_PARAM_new with
                        purpose := 5 } : X509_VERIFY_PARAM).inh_flags) &&&
              X509_VP_FLAG_DEFAULT != 0)
            (({ X509_VERIFY_PARAM_new with
                 purpose := 5 } : X509_VERIFY_PARAM).purpose)
            (({ X509_VERIFY_PARAM_new with
                 purpose := 7, inh_flags := 10 } : X509_VERIFY_PARAM).purpose) 0
         then ({ X509_VERIFY_PARAM_new with
                  purpose := 5 } : X509_VERIFY_PARAM).purpose
         else ({ X509_VERIFY_PARAM_new with
                  purpose := 7,
                  inh_flags := 10 } : X509_VERIFY_PARAM).purpose)) := by
  decide

/-- C3 (amended: true only when the overwrite bit is absent from the effective
flags; with overwrite set the ip step is selected even for an absent source
ip, and the merge fails and poisons the destination): when the source ip is
absent and overwrite is not in effect, the ip-copy step of the merge is a
success that changes nothing, and the full merge leaves the destination ip
and iplen untouched. -/
theorem inherit_absent_ip_no_overwrite (allocOk tDef : Bool)
    (dest stepDest src : X509_VERIFY_PARAM)
    (hip : src.ip = none)
    (hov : (dest.inh_flags ||| src.inh_flags) &&& X509_VP_FLAG_OVERWRITE = 0) :
    x509_ip_copy_step allocOk
        ((dest.inh_flags ||| src.inh_flags) &&& X509_VP_FLAG_OVERWRITE != 0)
        tDef stepDest src = (true, stepDest) ∧
    ((X509_VERIFY_PARAM_inherit allocOk dest (some src)).2).ip = dest.ip ∧
    ((X509_VERIFY_PARAM_inherit allocOk dest (some src)).2).iplen
      = dest.iplen := by
  have hstep : ∀ (d2 : X509_VERIFY_PARAM) (t2 : Bool),
      x509_ip_copy_step allocOk
        ((dest.inh_flags ||| src.inh_flags) &&& X509_VP_FLAG_OVERWRITE != 0)
        t2 d2 src = (true, d2) := by
    intro d2 t2
    simp [x509_ip_copy_step, test_x509_verify_param_copy, hip, hov]
  have hmain :
      ((X509_VERIFY_PARAM_inherit allocOk dest (some src)).2).ip = dest.ip ∧
      ((X509_VERIFY_PARAM_inherit allocOk dest (some src)).2).iplen
        = dest.iplen := by
    unfold X509_VERIFY_PARAM_inherit
    by_cases hl : (dest.inh_flags ||| src.inh_flags) &&& X509_VP_FLAG_LOCKED = 0
    · constructor <;>
        simp [hl, hstep,
          apply_ite (f := Prod.snd (α := Bool) (β := X509_VERIFY_PARAM)),
          apply_ite (f := X509_VERIFY_PARAM.ip),
          apply_ite (f := X509_VERIFY_PARAM.iplen),
          x509_policies_copy_step_frame, x509_hosts_copy_step_frame,
          x509_email_copy_step_frame, x509_scalar_inherit_spec, ite_self]
    · constructor <;>
        simp [bne_iff_ne, hl,
          apply_ite (f := X509_VERIFY_PARAM.ip),
          apply_ite (f := X509_VERIFY_PARAM.iplen), ite_self]
  exact ⟨hstep stepDest tDef, hmain.1, hmain.2⟩

/-- C3 witness: with no overwrite bit and a source without ip, the ip step is
an identity success and the destination keeps its stored address. -/
theorem inherit_absent_ip_no_overwrite_check :
    x509_ip_copy_step true false false X509_VERIFY_PARAM_new
        X509_VERIFY_PARAM_new = (true, X509_VERIFY_PARAM_new) ∧
    ((X509_VERIFY_PARAM_inherit true
        { X509_VERIFY_PARAM_new with ip := some [9, 9, 9, 9], iplen := 4 }
        (some X509_VERIFY_PARAM_new)).2).ip = some [9, 9, 9, 9] := by
  have h := inherit_absent_ip_no_overwrite true false
      { X509_VERIFY_PARAM_new with ip := some [9, 9, 9, 9], iplen := 4 }
      X509_VERIFY_PARAM_new X509_VERIFY_PARAM_new (by decide) (by decide)
  exact ⟨h.1, h.2.1⟩

/-- C3 counterexample: with the overwrite bit set and an absent source ip,
the merge is not a success: it fails and poisons the destination, so the
zero-length-ip merge failure does arise under overwrite. -/
theorem inherit_overwrite_absent_ip_fails :
    (X509_VERIFY_PARAM_inherit true
        { X509_VERIFY_PARAM_new with inh_flags := X509_VP_FLAG_OVERWRITE }
        (some X509_VERIFY_PARAM_new)).1 = false ∧
    ((X509_VERIFY_PARAM_inherit true
        { X509_VERIFY_PARAM_new with inh_flags := X509_VP_FLAG_OVERWRITE }
        (some X509_VERIFY_PARAM_new)).2).poison = true ∧
    X509_VERIFY_PARAM_new.ip = none := by decide

/-- C4 (amended: the source must be well-formed, as the public setters keep
it, and its `inh_flags` must contain neither the locked bit, which suppresses
all copying, nor the overwrite bit, which makes the merge fail whenever the
source ip is absent): `X509_VERIFY_PARAM_set1` applied to a freshly created
destination succeeds and yields a destination field-for-field equal to the
source for purpose, trust, depth, policies, hosts, email and ip, with
`inh_flags` left at its pre-call value. -/
theorem set1_fresh_copies_src (src : X509_VERIFY_PARAM)
    (hwf : idWellFormed src = true)
    (hL : src.inh_flags &&& X509_VP_FLAG_LOCKED = 0)
    (hO : src.inh_flags &&& X509_VP_FLAG_OVERWRITE = 0) :
    (X509_VERIFY_PARAM_set1 true X509_VERIFY_PARAM_new (some src)).1 = true ∧
    ((X509_VERIFY_PARAM_set1 true X509_VERIFY_PARAM_new
        (some src)).2).purpose = src.purpose ∧
    ((X509_VERIFY_PARAM_set1 true X509_VERIFY_PARAM_new
        (some src)).2).trust = src.trust ∧
    ((X509_VERIFY_PARAM_set1 true X509_VERIFY_PARAM_new
        (some src)).2).depth = src.depth ∧
    ((X509_VERIFY_PARAM_set1 true X509_VERIFY_PARAM_new
        (some src)).2).policies = src.policies ∧
    ((X509_VERIFY_PARAM_set1 true X509_VERIFY_PARAM_new
        (some src)).2).hosts = src.hosts ∧
    ((X509_VERIFY_PARAM_set1 true X509_VERIFY_PARAM_new
        (some src)).2).email = src.email ∧
    ((X509_VERIFY_PARAM_set1 true X509_VERIFY_PARAM_new
        (some src)).2).ip = src.ip ∧
    ((X509_VERIFY_PARAM_set1 true X509_VERIFY_PARAM_new
        (some src)).2).inh_flags = X509_VERIFY_PARAM_new.inh_flags := by
  have hLe : ((X509_VERIFY_PARAM_new.inh_flags ||| X509_VP_FLAG_DEFAULT) |||
      src.inh_flags) &&& X509_VP_FLAG_LOCKED = 0 := by
    rw [nat_and_or_distrib_right, hL]
    decide
  have hOe : ((X509_VERIFY_PARAM_new.inh_flags ||| X509_VP_FLAG_DEFAULT) |||
      src.inh_flags) &&& X509_VP_FLAG_OVERWRITE = 0 := by
    rw [nat_and_or_distrib_right, hO]
    decide
  have hDe : ((X509_VERIFY_PARAM_new.inh_flags ||| X509_VP_FLAG_DEFAULT) |||
      src.inh_flags) &&& X509_VP_FLAG_DEFAULT ≠ 0 := by
    rw [nat_and_or_distrib_right]
    exact nat_or_ne_zero_left _ _ (by decide)
  obtain ⟨ha, hb, hc, hd, he, hf, hg, hh⟩ :=
    inherit_default_into_fresh src
      { X509_VERIFY_PARAM_new with
        inh_flags := X509_VERIFY_PARAM_new.inh_flags ||| X509_VP_FLAG_DEFAULT }
      rfl rfl rfl rfl rfl rfl rfl hwf hLe hOe hDe
  exact ⟨ha, hb, hc, hd, he, hf, hg, hh, rfl⟩

/-- C4 witness: a fully configured, well-formed source is copied
field-for-field into a fresh destination. -/
theorem set1_fresh_copies_src_check :
    (X509_VERIFY_PARAM_set1 true X509_VERIFY_PARAM_new
        (some { X509_VERIFY_PARAM_new with
                purpose := 5, trust := 2, depth := 3,
                policies := some [42], hosts := some [[120]],
                email := some [97], emaillen := 1,
                ip := some [1, 2, 3, 4], iplen := 4 })).1 = true ∧
    ((X509_VERIFY_PARAM_set1 true X509_VERIFY_PARAM_new
        (some { X509_VERIFY_PARAM_new with
                purpose := 5, trust := 2, depth := 3,
                policies := some [42], hosts := some [[120]],
                email := some [97], emaillen := 1,
                ip := some [1, 2, 3, 4], iplen := 4 })).2).purpose = 5 ∧
    ((X509_VERIFY_PARAM_set1 true X509_VERIFY_PARAM_new
        (some { X509_VERIFY_PARAM_new with
                purpose := 5, trust := 2, depth := 3,
                policies := some [42], hosts := some [[120]],
                email := some [97], emaillen := 1,
                ip := some [1, 2, 3, 4], iplen := 4 })).2).email
      = some [97] := by
  have h := set1_fresh_copies_src
      { X509_VERIFY_PARAM_new with
        purpose := 5, trust := 2, depth := 3,
        policies := some [42], hosts := some [[120]],
        email := some [97], emaillen := 1,
        ip := some [1, 2, 3, 4], iplen := 4 }
      (by decide) (by decide) (by decide)
  refine ⟨h.1, ?_, ?_⟩
  · rw [h.2.1]
  · rw [h.2.2.2.2.2.2.1]

/-- C4 counterexample: a source whose `inh_flags` carries the overwrite bit
makes `X509_VERIFY_PARAM_set1` on a fresh destination fail (the overwrite
mode forces the ip copy, which rejects the absent source ip), contradicting
the claim that the call succeeds for every source store. -/
theorem set1_overwrite_src_fails :
    (X509_VERIFY_PARAM_set1 true X509_VERIFY_PARAM_new
        (some { X509_VERIFY_PARAM_new with
                inh_flags := X509_VP_FLAG_OVERWRITE })).1 = false := by decide

/-- C5 (amended: a NULL email clears the stored email to absent, but a
non-null empty string does not leave it absent: the call succeeds and stores
a present zero-length email): both calls report success; only the NULL call
makes the stored email absent. -/
theorem set1_email_null_clears_empty_stores (s : X509_VERIFY_PARAM)
    (allocOk : Bool) :
    X509_VERIFY_PARAM_set1_email allocOk s none 0 =
      (true, { s with email := none, emaillen := 0 }) ∧
    X509_VERIFY_PARAM_set1_email true s (some []) 0 =
      (true, { s with email := some [], emaillen := 0 }) := by
  constructor <;>
    simp [X509_VERIFY_PARAM_set1_email, int_x509_param_set1_email, memchr0,
      strlen, OPENSSL_strndup]

/-- C5 counterexample: after a successful SetEmail with a non-null empty
string of length 0, the stored email is present (a zero-length string), not
absent as the claim states. -/
theorem set1_email_empty_string_not_absent :
    (X509_VERIFY_PARAM_set1_email true X509_VERIFY_PARAM_new (some []) 0).1
      = true ∧
    ((X509_VERIFY_PARAM_set1_email true X509_VERIFY_PARAM_new
        (some []) 0).2).email ≠ none := by decide

/-- C6: for every store and every name containing a NUL byte within the first
`n` bytes (after auto-length detection when `n` is 0), both SetHost and
AddHost fail, set the poison marker, and leave every other field, including
the host list, unchanged: the rejection happens before SET mode clears the
existing list. -/
theorem host_embedded_nul_rejected (allocOk : Bool) (s : X509_VERIFY_PARAM)
    (name : List Nat) (n : Nat)
    (h : memchr0 (some name) (if n == 0 then strlen name else n) = true) :
    X509_VERIFY_PARAM_set1_host allocOk s (some name) n =
      (false, { s with poison := true }) ∧
    X509_VERIFY_PARAM_add1_host allocOk s (some name) n =
      (false, { s with poison := true }) := by
  refine ⟨?_, ?_⟩
  · unfold X509_VERIFY_PARAM_set1_host int_x509_param_set_hosts
    simp only [Option.isSome_some, Bool.true_and, h, if_true]
    rfl
  · unfold X509_VERIFY_PARAM_add1_host int_x509_param_set_hosts
    simp only [Option.isSome_some, Bool.true_and, h, if_true]
    rfl

/-- C6 witness: the three-byte name 104,0,105 with an embedded NUL is
rejected by both setters with the poison marker set and hosts untouched. -/
theorem host_embedded_nul_rejected_check :
    X509_VERIFY_PARAM_set1_host true X509_VERIFY_PARAM_new
        (some [104, 0, 105]) 3 =
      (false, { X509_VERIFY_PARAM_new with poison := true }) ∧
    X509_VERIFY_PARAM_add1_host true X509_VERIFY_PARAM_new
        (some [104, 0, 105]) 3 =
      (false, { X509_VERIFY_PARAM_new with poison := true }) :=
  host_embedded_nul_rejected true X509_VERIFY_PARAM_new [104, 0, 105] 3
    (by decide)

/-- C7 (amended: restricted to names of nonzero effective length, since a
NULL or empty name is a successful no-op that stores nothing and, in SET
mode, still clears the list): two successful SetHost calls with NUL-free
names of nonzero effective length leave exactly the last name as the single
host, while two such AddHost calls append both names in insertion order. -/
theorem hosts_set_replaces_add_appends (s : X509_VERIFY_PARAM)
    (x y : List Nat) (nx ny : Nat)
    (hx0 : ((if nx == 0 then strlen x else nx) == 0) = false)
    (hy0 : ((if ny == 0 then strlen y else ny) == 0) = false)
    (hxn : memchr0 (some x) (if nx == 0 then strlen x else nx) = false)
    (hyn : memchr0 (some y) (if ny == 0 then strlen y else ny) = false) :
    (X509_VERIFY_PARAM_set1_host true s (some x) nx).1 = true ∧
    (X509_VERIFY_PARAM_set1_host true
        (X509_VERIFY_PARAM_set1_host true s (some x) nx).2 (some y) ny).1
      = true ∧
    ((X509_VERIFY_PARAM_set1_host true
        (X509_VERIFY_PARAM_set1_host true s (some x) nx).2 (some y) ny).2).hosts
      = some [OPENSSL_strndup y (if ny == 0 then strlen y else ny)] ∧
    (X509_VERIFY_PARAM_add1_host true s (some x) nx).1 = true ∧
    (X509_VERIFY_PARAM_add1_host true
        (X509_VERIFY_PARAM_add1_host true s (some x) nx).2 (some y) ny).1
      = true ∧
    ((X509_VERIFY_PARAM_add1_host true
        (X509_VERIFY_PARAM_add1_host true s (some x) nx).2 (some y) ny).2).hosts
      = some (s.hosts.getD [] ++
          [OPENSSL_strndup x (if nx == 0 then strlen x else nx),
           OPENSSL_strndup y (if ny == 0 then strlen y else ny)]) := by
  refine ⟨?_, ?_, ?_, ?_, ?_, ?_⟩ <;>
    simp [set1_host_ok x nx hx0 hxn, set1_host_ok y ny hy0 hyn,
      add1_host_ok x nx hx0 hxn, add1_host_ok y ny hy0 hyn]

/-- C7 witness: setting host 120 then host 121 leaves only 121, while adding
them leaves both in order. -/
theorem hosts_set_replaces_add_appends_check :
    (X509_VERIFY_PARAM_set1_host true
        (X509_VERIFY_PARAM_set1_host true X509_VERIFY_PARAM_new
          (some [120]) 1).2 (some [121]) 1).2.hosts = some [[121]] ∧
    (X509_VERIFY_PARAM_add1_host true
        (X509_VERIFY_PARAM_add1_host true X509_VERIFY_PARAM_new
          (some [120]) 1).2 (some [121]) 1).2.hosts
      = some [[120], [121]] := by
  have h := hosts_set_replaces_add_appends X509_VERIFY_PARAM_new
      [120] [121] 1 1 (by decide) (by decide) (by decide) (by decide)
  exact ⟨by rw [h.2.2.1]; decide, by rw [h.2.2.2.2.2]; decide⟩

/-- C7 counterexample: a second SetHost call with a non-null empty name (auto
length 0) is successful but clears the list and stores nothing, so two
successive successful SetHost calls need not leave the last name as the
single host. -/
theorem hosts_set_empty_succeeds_clears :
    (X509_VERIFY_PARAM_set1_host true X509_VERIFY_PARAM_new
        (some [120]) 1).1 = true ∧
    (X509_VERIFY_PARAM_set1_host true
        (X509_VERIFY_PARAM_set1_host true X509_VERIFY_PARAM_new
          (some [120]) 1).2 (some []) 0).1 = true ∧
    ((X509_VERIFY_PARAM_set1_host true
        (X509_VERIFY_PARAM_set1_host true X509_VERIFY_PARAM_new
          (some [120]) 1).2 (some []) 0).2).hosts = none := by decide

/-- C8 (amended: the policy-check flag is forced on only by a successful call
with a present argument; a clearing call with an absent argument succeeds
without touching the flags): SetPolicies replaces the stored policies
wholesale with a deep copy of a present argument and forces the policy-check
flag on, clears them to absent for an absent argument leaving the flags
untouched, and on duplication failure fails with the stored policies left
absent. -/
theorem set1_policies_replace_clear_fail (param : X509_VERIFY_PARAM)
    (oids : List Nat) (allocOk : Bool) :
    X509_VERIFY_PARAM_set1_policies allocOk param none =
      (true, { param with policies := none }) ∧
    X509_VERIFY_PARAM_set1_policies true param (some oids) =
      (true, { param with policies := some oids,
                          flags := param.flags ||| X509_V_FLAG_POLICY_CHECK }) ∧
    X509_VERIFY_PARAM_set1_policies false param (some oids) =
      (false, { param with policies := none }) := by
  refine ⟨?_, ?_, ?_⟩ <;> simp [X509_VERIFY_PARAM_set1_policies]

/-- C8 counterexample: the clearing call succeeds yet does not set the
policy-check flag bit, contradicting the claim that every successful call
forces it on. -/
theorem set1_policies_clear_skips_flag :
    (X509_VERIFY_PARAM_set1_policies true X509_VERIFY_PARAM_new none).1
      = true ∧
    ((X509_VERIFY_PARAM_set1_policies true X509_VERIFY_PARAM_new none).2).flags
        &&& X509_V_FLAG_POLICY_CHECK = 0 := by decide

/-- C9: destroying an absent store is a safe no-op: the destructor performs
no release action at all on a NULL store. -/
theorem free_null_is_noop : X509_VERIFY_PARAM_free none = [] := rfl

/-- C10: SetIP with an absent byte pointer fails and poisons the store for
every length, including 4 and 16, leaving every other field (in particular
the stored ip bytes) unchanged; and a successful SetIP requires a present
buffer and a length of exactly 4 or 16. -/
theorem set1_ip_null_fails_success_requires (s : X509_VERIFY_PARAM)
    (ip : Option (List Nat)) (len : Nat) (allocOk : Bool) :
    X509_VERIFY_PARAM_set1_ip allocOk s none len =
      (false, { s with poison := true }) ∧
    ((X509_VERIFY_PARAM_set1_ip allocOk s ip len).1 = true →
      ip ≠ none ∧ (len = 4 ∨ len = 16)) := by
  constructor
  · unfold X509_VERIFY_PARAM_set1_ip int_x509_param_set1_ip
    split <;> rfl
  · intro h
    unfold X509_VERIFY_PARAM_set1_ip int_x509_param_set1_ip at h
    by_cases hbad : (len != 0 && len != 4 && len != 16) = true
    · rw [if_pos hbad] at h
      simp at h
    · rw [if_neg hbad] at h
      rcases hip : ip with _ | b
      · rw [hip] at h
        simp at h
      · rw [hip] at h
        by_cases h0 : (len == 0) = true
        · simp [h0] at h
        · simp only [Bool.and_eq_true, bne_iff_ne, ne_eq, not_and, not_not,
            Bool.not_eq_true] at hbad
          simp only [beq_iff_eq] at h0
          refine ⟨by simp, ?_⟩
          by_cases h4 : len = 4
          · exact Or.inl h4
          · by_cases h16 : len = 16
            · exact Or.inr h16
            · exfalso
              have hc := hbad
              simp [bne, h0, h4, h16] at hc

/-- C10 witness: SetIP with a NULL pointer and length 4 fails and poisons,
and a concrete successful call has a present 4-byte buffer. -/
theorem set1_ip_null_fails_success_requires_check :
    X509_VERIFY_PARAM_set1_ip true X509_VERIFY_PARAM_new none 4 =
      (false, { X509_VERIFY_PARAM_new with poison := true }) ∧
    (some [1, 2, 3, 4] ≠ (none : Option (List Nat)) ∧ (4 = 4 ∨ 4 = 16)) :=
  ⟨(set1_ip_null_fails_success_requires X509_VERIFY_PARAM_new
      (some [1, 2, 3, 4]) 4 true).1,
   (set1_ip_null_fails_success_requires X509_VERIFY_PARAM_new
      (some [1, 2, 3, 4]) 4 true).2 (by decide)⟩
